import Mathlib

/-!
Shallow embedding of `src/notebook/Utils.py` (repository ICON_IDS).

The repository is six stateless helper functions over pandas DataFrames.
We model a DataFrame as a list of named columns, each column a list of
cells; a cell is `Option V` where `none` models a missing value (NaN) and
`some v` an ordinary value `v`.  `nrows` models `len(df)` and every column
has exactly `nrows` cells (pandas rectangularity invariant).

Numeric computation (`np.round`, percentage shares) is modelled over `ℚ`
with `np.round`'s round-half-to-even semantics made explicit; the
floating-point representation itself is out of scope of the embedding.
-/

/-- A pandas DataFrame: named columns of equal length.  A cell is
`Option V`, `none` standing for a missing value (NaN). -/
structure DataFrame (V : Type) where
  columns : List (String × List (Option V))
  nrows : Nat
  hrect : ∀ p ∈ columns, p.2.length = nrows

/-- Column selection `df[name]`: the first column with that name, `none`
when the column is absent (pandas raises `KeyError` there; fallible code
is modelled with `Option`). -/
def DataFrame.get {V : Type} (df : DataFrame V) (name : String) :
    Option (List (Option V)) :=
  (df.columns.find? (fun p => p.1 == name)).map (fun p => p.2)

/-- Model of `Series.value_counts()` before sorting: pandas groups the
non-missing cells (`value_counts` drops NaN) and pairs each distinct value
with its number of occurrences in the column. -/
def valueCounts {V : Type} [DecidableEq V] (cells : List (Option V)) :
    List (V × Nat) :=
  (cells.filterMap id).dedup.map (fun v => (v, cells.count (some v)))

/-- Model of sorting count pairs by descending count
(`value_counts()` returns counts sorted descending, and
`.sort_values(ascending=False)` re-sorts the same way; the double sort of
the source collapses to a single sort).  Tie order among equal counts is
unspecified in pandas; the embedding fixes a stable insertion sort. -/
def sortCountsDesc {α : Type} (l : List (α × Nat)) : List (α × Nat) :=
  List.insertionSort (fun a b => b.2 ≤ a.2) l

instance decRelCountsDesc {α : Type} :
    DecidableRel (fun a b : α × Nat => b.2 ≤ a.2) :=
  fun a b => Nat.decLe b.2 a.2

instance totalCountsDesc {α : Type} :
    IsTotal (α × Nat) (fun a b => b.2 ≤ a.2) :=
  ⟨fun a b => Nat.le_total b.2 a.2⟩

instance transCountsDesc {α : Type} :
    IsTrans (α × Nat) (fun a b => b.2 ≤ a.2) :=
  ⟨fun _ _ _ hab hbc => Nat.le_trans hbc hab⟩

/-- Round a rational to the nearest integer, ties to the even integer:
the rounding mode of `np.round`. -/
def roundHalfEven (x : ℚ) : ℤ :=
  if x - ⌊x⌋ < 1/2 then ⌊x⌋
  else if 1/2 < x - ⌊x⌋ then ⌊x⌋ + 1
  else if ⌊x⌋ % 2 = 0 then ⌊x⌋ else ⌊x⌋ + 1

/-- Model of `np.round(x, 3)`: round to three decimal places, ties to
even. -/
def npRound3 (x : ℚ) : ℚ :=
  (roundHalfEven (x * 1000) : ℚ) / 1000

/-- The summary table built by `create_class_distribution_table`: a pandas
DataFrame with exactly the three columns 'Attacco' (category label),
'Numero di Esempi' (count) and 'Percentuale' (percentage), plus its row
index. -/
structure SummaryTable (V : Type) where
  Attacco : List V
  NumeroDiEsempi : List Nat
  Percentuale : List ℚ
  index : List Nat
deriving DecidableEq

/-- Model of `create_class_distribution_table(df, column_name)`:
value counts of the column sorted descending, each count's percentage of
`len(df)` rounded to three decimals, assembled into a three-column table
whose index is `np.arange(1, len(table) + 1)`.  Returns `none` when the
column is absent (the Python code would raise). -/
def create_class_distribution_table {V : Type} [DecidableEq V]
    (df : DataFrame V) (column_name : String) : Option (SummaryTable V) :=
  (df.get column_name).map (fun col =>
    let class_distribution := sortCountsDesc (valueCounts col)
    { Attacco := class_distribution.map (fun p => p.1)
      NumeroDiEsempi := class_distribution.map (fun p => p.2)
      Percentuale := class_distribution.map
        (fun p => npRound3 ((p.2 : ℚ) / (df.nrows : ℚ) * 100))
      index := List.range' 1 class_distribution.length })

/-- One of the two single-column tables returned by `find_unique_values`:
a column name and the list of exclusive values.  Cells are `Option V`
because `Series.unique()` keeps NaN. -/
structure ExclusiveTable (V : Type) where
  colName : String
  values : List (Option V)
deriving DecidableEq

/-- Model of `find_unique_values(df1, df2, column_name, df1_name,
df2_name)`: the set of distinct values of each column
(`set(df［col].unique())`), their two asymmetric differences, and one
single-column DataFrame per difference (`list(set)` has unspecified
order; the embedding lists the elements in first-kept `dedup` order).
Returns `none` when either column is absent (the Python code would
raise). -/
def find_unique_values {V : Type} [DecidableEq V] (df1 df2 : DataFrame V)
    (column_name df1_name df2_name : String) :
    Option (ExclusiveTable V × ExclusiveTable V) :=
  match df1.get column_name, df2.get column_name with
  | some c1, some c2 =>
    let values_only_in_df1 := c1.dedup.filter (fun x => decide (x ∉ c2))
    let values_only_in_df2 := c2.dedup.filter (fun x => decide (x ∉ c1))
    some (⟨"Valori unici in " ++ df1_name, values_only_in_df1⟩,
          ⟨"Valori unici in " ++ df2_name, values_only_in_df2⟩)
  | _, _ => none

/-- The data placed on screen by `plot_class_distribution`: bar labels,
bar heights, the percentage annotation of each bar, and the display
parameters forwarded to matplotlib. -/
structure BarChart (V : Type) where
  labels : List V
  heights : List Nat
  percentages : List ℚ
  title : String
  xlabel : String
  ylabel : String
  figsize : Nat × Nat
  color_map : String
  rotation : Nat

/-- The data placed on screen by `plot_pie_chart_distribution`: slice
labels, slice sizes, per-slice explode offsets, and display parameters. -/
structure PieChart (V : Type) where
  labels : List V
  sizes : List Nat
  explode : List ℚ
  title : String
  figsize : Nat × Nat

/-- The data placed on screen by `plot_grouped_bar`: the
(category, sub-category) pairs with their group sizes, the name given to
the size column, and display parameters. -/
structure GroupedBarChart (V : Type) where
  groups : List ((V × V) × Nat)
  countName : String
  title : String
  xlabel : String
  ylabel : String
  figsize : Nat × Nat
  rotation : Nat

/-- The data placed on screen by `plot_line_distribution`: the
(category, count) points of the line, the two column names of the
intermediate DataFrame, and display parameters. -/
structure LineChart (V : Type) where
  points : List (V × Nat)
  columns : String × String
  figsize : Nat × Nat
  rotation : Nat
  grid : Bool
  title : Option String
  xlabel : Option String
  ylabel : String

/-- State-passing model of `plot_class_distribution`: the body computes
`value_counts`, the total of the counts, and each bar's percentage of that
total, then renders.  Every pandas call used (`value_counts`, `sum`)
returns a fresh object, so the DataFrame state is returned unchanged. -/
def plot_class_distribution_run {V : Type} [DecidableEq V]
    (df : DataFrame V) (column title xlabel ylabel : String)
    (figsize : Nat × Nat) (color_map : String) (rotation : Nat) :
    Option (BarChart V) × DataFrame V :=
  ((df.get column).map (fun col =>
    let class_distribution := sortCountsDesc (valueCounts col)
    let total_observations := (class_distribution.map (fun p => p.2)).sum
    let percentages := class_distribution.map
      (fun p => (p.2 : ℚ) / (total_observations : ℚ) * 100)
    { labels := class_distribution.map (fun p => p.1)
      heights := class_distribution.map (fun p => p.2)
      percentages := percentages
      title := title, xlabel := xlabel, ylabel := ylabel
      figsize := figsize, color_map := color_map, rotation := rotation }),
   df)

/-- The explode offset of one pie slice: `0.1` when the slice's count is
below `total * explode_threshold`, else `0`. -/
def explodeOffset (count total : Nat) (explode_threshold : ℚ) : ℚ :=
  if (count : ℚ) < (total : ℚ) * explode_threshold then 1/10 else 0

/-- State-passing model of `plot_pie_chart_distribution`: the body
computes `value_counts`, the total, and an explode offset of `0.1` for
every slice whose count is below `total * explode_threshold`; no pandas
call used mutates the DataFrame. -/
def plot_pie_chart_distribution_run {V : Type} [DecidableEq V]
    (df : DataFrame V) (column title : String) (figsize : Nat × Nat)
    (explode_threshold : ℚ) : Option (PieChart V) × DataFrame V :=
  ((df.get column).map (fun col =>
    let class_distribution := sortCountsDesc (valueCounts col)
    let total : Nat := (class_distribution.map (fun p => p.2)).sum
    let explode_values := class_distribution.map
      (fun p => explodeOffset p.2 total explode_threshold)
    { labels := class_distribution.map (fun p => p.1)
      sizes := class_distribution.map (fun p => p.2)
      explode := explode_values
      title := title, figsize := figsize }),
   df)

/-- State-passing model of `plot_grouped_bar`: the body groups rows by
the (category, sub-category) pair (`groupby` drops rows with a missing
key), counts each group, sorts groups by descending count, and renders;
`groupby`, `size`, `reset_index` and `sort_values` all return fresh
objects. -/
def plot_grouped_bar_run {V : Type} [DecidableEq V] (df : DataFrame V)
    (category sub_category count title xlabel ylabel : String)
    (figsize : Nat × Nat) (rotation : Nat) :
    Option (GroupedBarChart V) × DataFrame V :=
  ((match df.get category, df.get sub_category with
    | some c1, some c2 =>
      let keys := (c1.zip c2).filterMap
        (fun p => p.1.bind (fun a => p.2.map (fun b => (a, b))))
      let grouped_data := keys.dedup.map (fun k => (k, keys.count k))
      some { groups := sortCountsDesc grouped_data
             countName := count
             title := title, xlabel := xlabel, ylabel := ylabel
             figsize := figsize, rotation := rotation }
    | _, _ => none),
   df)

/-- State-passing model of `create_class_distribution_table`: the
function only reads the column and builds a brand-new table (the index
assignment mutates the new table, never the argument). -/
def create_class_distribution_table_run {V : Type} [DecidableEq V]
    (df : DataFrame V) (column_name : String) :
    Option (SummaryTable V) × DataFrame V :=
  (create_class_distribution_table df column_name, df)

/-- State-passing model of `find_unique_values`: both arguments are only
read. -/
def find_unique_values_run {V : Type} [DecidableEq V]
    (df1 df2 : DataFrame V) (column_name df1_name df2_name : String) :
    Option (ExclusiveTable V × ExclusiveTable V) × (DataFrame V × DataFrame V) :=
  (find_unique_values df1 df2 column_name df1_name df2_name, (df1, df2))

/-- State-passing model of `plot_line_distribution`: the body computes
`value_counts().reset_index()`, renames the columns of that fresh
DataFrame, and renders. -/
def plot_line_distribution_run {V : Type} [DecidableEq V]
    (df : DataFrame V) (column : String) (figsize : Nat × Nat)
    (rotation : Nat) (grid : Bool) (title xlabel : Option String)
    (ylabel : String) : Option (LineChart V) × DataFrame V :=
  ((df.get column).map (fun col =>
    let distribution := sortCountsDesc (valueCounts col)
    { points := distribution
      columns := (column, "Count")
      figsize := figsize, rotation := rotation, grid := grid
      title := title, xlabel := xlabel, ylabel := ylabel }),
   df)

/-- Default `figsize=(12, 7)` of `plot_class_distribution`. -/
def plot_class_distribution_default_figsize : Nat × Nat := (12, 7)

/-- Default `color_map='jet'` of `plot_class_distribution`. -/
def plot_class_distribution_default_color_map : String := "jet"

/-- Default `rotation=45` of `plot_class_distribution`. -/
def plot_class_distribution_default_rotation : Nat := 45

/-- Default `figsize=(10, 8)` of `plot_pie_chart_distribution`. -/
def plot_pie_chart_distribution_default_figsize : Nat × Nat := (10, 8)

/-- Default `explode_threshold=0.05` of `plot_pie_chart_distribution`. -/
def plot_pie_chart_distribution_default_explode_threshold : ℚ := 5/100

/-- Default `figsize=(15, 7)` of `plot_grouped_bar`. -/
def plot_grouped_bar_default_figsize : Nat × Nat := (15, 7)

/-- Default `rotation=45` of `plot_grouped_bar`. -/
def plot_grouped_bar_default_rotation : Nat := 45

/-- Default `df1_name='First Dataset'` of `find_unique_values`. -/
def find_unique_values_default_df1_name : String := "First Dataset"

/-- Default `df2_name='Second Dataset'` of `find_unique_values`. -/
def find_unique_values_default_df2_name : String := "Second Dataset"

/-- Default `figsize=(15, 7)` of `plot_line_distribution`. -/
def plot_line_distribution_default_figsize : Nat × Nat := (15, 7)

/-- Default `rotation=90` of `plot_line_distribution`. -/
def plot_line_distribution_default_rotation : Nat := 90

/-- Default `grid=True` of `plot_line_distribution`. -/
def plot_line_distribution_default_grid : Bool := true

/-- Default `ylabel='Numero di Osservazioni'` of `plot_line_distribution`. -/
def plot_line_distribution_default_ylabel : String := "Numero di Osservazioni"

/-- The attack-type column of the scenario table: values
["dos", "dos", "probe", "dos"]. -/
def attackCells : List (Option String) :=
  [some "dos", some "dos", some "probe", some "dos"]

/-- The scenario table: a single column "attack_type" with four rows. -/
def dfAttack : DataFrame String :=
  ⟨[("attack_type", attackCells)], 4, by decide⟩

/-- A column holding one distinct value twice. -/
def singleCells : List (Option String) := [some "x", some "x"]

/-- A table whose only column holds exactly one distinct value. -/
def dfSingle : DataFrame String :=
  ⟨[("t", singleCells)], 2, by decide⟩

/-- Column "x" of the first comparison table: values a, b, c. -/
def x1Cells : List (Option String) := [some "a", some "b", some "c"]

/-- Column "x" of the second comparison table: values b, c, d. -/
def x2Cells : List (Option String) := [some "b", some "c", some "d"]

/-- First table of the set-comparison scenario. -/
def dfX1 : DataFrame String := ⟨[("x", x1Cells)], 3, by decide⟩

/-- Second table of the set-comparison scenario. -/
def dfX2 : DataFrame String := ⟨[("x", x2Cells)], 3, by decide⟩

/-- A two-row column with one missing value. -/
def missingCells : List (Option Nat) := [some 0, none]

/-- A table whose column has one value and one missing cell. -/
def dfMissing : DataFrame Nat := ⟨[("c", missingCells)], 2, by decide⟩

/-- A table with zero rows. -/
def dfEmpty : DataFrame Nat := ⟨[("c", [])], 0, by decide⟩

/-- A 600-cell column: the 599 values 0..598 once each, then one missing
cell. -/
def c9Cells : List (Option Nat) := ((List.range 599).map some) ++ [none]

/-- A 600-row table built on `c9Cells`. -/
def dfC9 : DataFrame Nat :=
  ⟨[("c", c9Cells)], 600, by
    intro p hp
    rw [List.mem_singleton] at hp
    subst hp
    simp [c9Cells]⟩

/-- Counting `some v` in a column equals counting `v` among the
non-missing cells. -/
theorem count_some_filterMap {V : Type} [DecidableEq V] (v : V)
    (cells : List (Option V)) :
    cells.count (some v) = (cells.filterMap id).count v := by
  induction cells with
  | nil => rfl
  | cons x xs ih =>
    cases x with
    | none => simpa [List.count_cons, List.filterMap_cons] using ih
    | some w =>
      by_cases hw : w = v
      · subst hw; simp [List.count_cons, List.filterMap_cons, ih]
      · simp [List.count_cons, List.filterMap_cons, ih, hw]

/-- The counts of `valueCounts` sum to the number of non-missing cells. -/
theorem sum_counts_valueCounts {V : Type} [DecidableEq V]
    (cells : List (Option V)) :
    ((valueCounts cells).map (fun p => p.2)).sum =
      (cells.filterMap id).length := by
  unfold valueCounts
  rw [List.map_map]
  have hcongr :
      (cells.filterMap id).dedup.map
        ((fun p : V × Nat => p.2) ∘ fun v => (v, cells.count (some v))) =
      (cells.filterMap id).dedup.map
        (fun v => (cells.filterMap id).count v) := by
    refine List.map_congr_left (fun a _ => ?_)
    simpa using count_some_filterMap a cells
  rw [hcongr]
  exact List.sum_map_count_dedup_eq_length _

/-- Sorting by descending count permutes the count pairs. -/
theorem sortCountsDesc_perm {α : Type} (l : List (α × Nat)) :
    (sortCountsDesc l).Perm l :=
  List.perm_insertionSort _ l

/-- Sorting keeps the list length. -/
theorem sortCountsDesc_length {α : Type} (l : List (α × Nat)) :
    (sortCountsDesc l).length = l.length :=
  (sortCountsDesc_perm l).length_eq

/-- Sorting keeps the multiset of any projection, hence its sum. -/
theorem sortCountsDesc_map_sum {α : Type} (l : List (α × Nat)) :
    ((sortCountsDesc l).map (fun p => p.2)).sum =
      (l.map (fun p => p.2)).sum :=
  ((sortCountsDesc_perm l).map (fun p => p.2)).sum_eq

/-- The counts column of `sortCountsDesc` is sorted descending. -/
theorem sortCountsDesc_sorted {α : Type} (l : List (α × Nat)) :
    (((sortCountsDesc l).map (fun p => p.2)).Sorted (fun a b => b ≤ a)) := by
  have h := List.sorted_insertionSort (fun a b : α × Nat => b.2 ≤ a.2) l
  exact List.pairwise_map.mpr h

/-- A column all of whose cells hold a value loses nothing to
`filterMap id`. -/
theorem length_filterMap_of_all_isSome {V : Type}
    (cells : List (Option V)) (h : ∀ x ∈ cells, x.isSome) :
    (cells.filterMap id).length = cells.length := by
  induction cells with
  | nil => rfl
  | cons x xs ih =>
    cases x with
    | none => exact absurd (h none (List.mem_cons_self none xs)) (by simp)
    | some w =>
      have ihh := ih (fun y hy => h y (List.mem_cons_of_mem _ hy))
      simp [List.filterMap_cons, ihh]

/-- A missing cell strictly shrinks `filterMap id`. -/
theorem length_filterMap_lt_of_none_mem {V : Type}
    (cells : List (Option V)) (h : none ∈ cells) :
    (cells.filterMap id).length < cells.length := by
  induction cells with
  | nil => cases h
  | cons x xs ih =>
    cases x with
    | none =>
      simp only [List.filterMap_cons, id, List.length_cons]
      exact Nat.lt_succ_of_le (List.length_filterMap_le id xs)
    | some w =>
      have hx : none ∈ xs := by
        cases List.mem_cons.mp h with
        | inl hh => cases hh
        | inr hh => exact hh
      simp only [List.filterMap_cons, id, List.length_cons]
      exact Nat.succ_lt_succ (ih hx)

/-- Summed rounding error over a list: each term moves by at most `c`. -/
theorem abs_sum_map_sub_le {α : Type} (l : List α) (f g : α → ℚ) (c : ℚ)
    (h : ∀ a ∈ l, |f a - g a| ≤ c) :
    |(l.map f).sum - (l.map g).sum| ≤ l.length * c := by
  induction l with
  | nil => simp
  | cons x xs ih =>
    have hx := h x (List.mem_cons_self x xs)
    have hxs := ih (fun a ha => h a (List.mem_cons_of_mem _ ha))
    simp only [List.map_cons, List.sum_cons, List.length_cons]
    have heq : f x + (xs.map f).sum - (g x + (xs.map g).sum) =
        (f x - g x) + ((xs.map f).sum - (xs.map g).sum) := by ring
    rw [heq]
    calc |(f x - g x) + ((xs.map f).sum - (xs.map g).sum)|
        ≤ |f x - g x| + |(xs.map f).sum - (xs.map g).sum| := abs_add _ _
      _ ≤ c + xs.length * c := add_le_add hx hxs
      _ = (xs.length + 1) * c := by ring
    push_cast
    ring_nf
    exact le_refl _

/-- A column obtained by `DataFrame.get` has `nrows` cells. -/
theorem DataFrame.length_of_get {V : Type} {df : DataFrame V} {name : String}
    {col : List (Option V)} (h : df.get name = some col) :
    col.length = df.nrows := by
  unfold DataFrame.get at h
  cases hf : df.columns.find? (fun p => p.1 == name) with
  | none => rw [hf] at h; simp at h
  | some p =>
    rw [hf] at h
    simp only [Option.map_some', Option.some.injEq] at h
    exact h ▸ df.hrect p (List.mem_of_find?_eq_some hf)

/-- Rounding where the fractional part is below one half: round down. -/
theorem npRound3_of_floor_lt {x : ℚ} {f : ℤ} (h : ⌊x * 1000⌋ = f)
    (hlt : x * 1000 - (f : ℚ) < 1/2) : npRound3 x = (f : ℚ) / 1000 := by
  unfold npRound3 roundHalfEven
  rw [h, if_pos hlt]

/-- Rounding where the fractional part is above one half: round up. -/
theorem npRound3_of_floor_gt {x : ℚ} {f : ℤ} (h : ⌊x * 1000⌋ = f)
    (hgt : 1/2 < x * 1000 - (f : ℚ)) :
    npRound3 x = ((f : ℚ) + 1) / 1000 := by
  unfold npRound3 roundHalfEven
  rw [h, if_neg (by linarith), if_pos hgt]
  push_cast
  ring_nf

/-- The rounding error of `roundHalfEven` is at most one half. -/
theorem abs_roundHalfEven_sub_le (x : ℚ) :
    |(roundHalfEven x : ℚ) - x| ≤ 1/2 := by
  have h0 : (0 : ℚ) ≤ x - ⌊x⌋ := by
    have := Int.floor_le x; linarith
  have h1 : x - (⌊x⌋ : ℚ) < 1 := by
    have := Int.lt_floor_add_one x; linarith
  unfold roundHalfEven
  split_ifs with hc1 hc2 hc3
  · rw [abs_le]; constructor <;> linarith
  · rw [abs_le]; push_cast; constructor <;> linarith
  · rw [abs_le]; constructor <;> linarith
  · rw [abs_le]; push_cast; constructor <;> linarith

/-- The rounding error of `npRound3` is at most `1/2000`. -/
theorem abs_npRound3_sub_le (x : ℚ) : |npRound3 x - x| ≤ 1/2000 := by
  have h := abs_roundHalfEven_sub_le (x * 1000)
  unfold npRound3
  have hx : (roundHalfEven (x * 1000) : ℚ) / 1000 - x =
      ((roundHalfEven (x * 1000) : ℚ) - x * 1000) / 1000 := by ring
  rw [hx, abs_div]
  rw [show |(1000 : ℚ)| = 1000 by norm_num]
  rw [div_le_iff (by norm_num)]
  calc |(roundHalfEven (x * 1000) : ℚ) - x * 1000| ≤ 1/2 := h
    _ = 1/2000 * 1000 := by norm_num

/-- Unfolding of `create_class_distribution_table` when the column
exists. -/
theorem create_table_eq {V : Type} [DecidableEq V] {df : DataFrame V}
    {c : String} {col : List (Option V)} (h : df.get c = some col) :
    create_class_distribution_table df c = some
      { Attacco := (sortCountsDesc (valueCounts col)).map (fun p => p.1)
        NumeroDiEsempi := (sortCountsDesc (valueCounts col)).map (fun p => p.2)
        Percentuale := (sortCountsDesc (valueCounts col)).map
          (fun p => npRound3 ((p.2 : ℚ) / (df.nrows : ℚ) * 100))
        index := List.range' 1 (sortCountsDesc (valueCounts col)).length } := by
  rw [create_class_distribution_table, h, Option.map_some']

/-- C1 (amended): for every table and present column, the summary table
has as many rows as the column has distinct non-missing values, its
counts sum to the number of non-missing cells, and when no cell is
missing that sum equals the row count of the table. -/
theorem c1_row_count_and_count_sum {V : Type} [DecidableEq V]
    (df : DataFrame V) (c : String) (col : List (Option V))
    (hcol : df.get c = some col) :
    ∃ S, create_class_distribution_table df c = some S ∧
      S.NumeroDiEsempi.length = (col.filterMap id).dedup.length ∧
      S.NumeroDiEsempi.sum = (col.filterMap id).length ∧
      ((∀ x ∈ col, x.isSome) → S.NumeroDiEsempi.sum = df.nrows) := by
  refine ⟨_, create_table_eq hcol, ?_, ?_, ?_⟩
  · rw [List.length_map, sortCountsDesc_length]
    unfold valueCounts
    rw [List.length_map]
  · rw [sortCountsDesc_map_sum, sum_counts_valueCounts]
  · intro hall
    rw [sortCountsDesc_map_sum, sum_counts_valueCounts,
      length_filterMap_of_all_isSome col hall, DataFrame.length_of_get hcol]

/-- Witness for C1 at the attack-type scenario table. -/
theorem c1_row_count_and_count_sum_witness :
    dfAttack.get "attack_type" = some attackCells ∧
    (∃ S, create_class_distribution_table dfAttack "attack_type" = some S ∧
      S.NumeroDiEsempi.length = (attackCells.filterMap id).dedup.length ∧
      S.NumeroDiEsempi.sum = (attackCells.filterMap id).length ∧
      ((∀ x ∈ attackCells, x.isSome) →
        S.NumeroDiEsempi.sum = dfAttack.nrows)) :=
  ⟨by decide,
   c1_row_count_and_count_sum dfAttack "attack_type" attackCells (by decide)⟩

/-- C1 as stated fails on a column with a missing cell: `value_counts`
drops the missing cell, so the counts sum to 1 while the table has 2
rows. -/
theorem c1_counterexample :
    ∃ S, create_class_distribution_table dfMissing "c" = some S ∧
      S.NumeroDiEsempi.sum ≠ dfMissing.nrows := by
  refine ⟨_,
    create_table_eq (show dfMissing.get "c" = some missingCells by decide),
    ?_⟩
  have h : (sortCountsDesc (valueCounts missingCells)).map (fun p => p.2) =
      [1] := by decide
  rw [h]
  decide

/-- The exact (unrounded) percentage shares of the summary table sum to
`100 * (non-missing cells) / len(df)`. -/
theorem sum_shares {V : Type} [DecidableEq V] (df : DataFrame V)
    (col : List (Option V)) :
    ((sortCountsDesc (valueCounts col)).map
        (fun p => (p.2 : ℚ) / (df.nrows : ℚ) * 100)).sum =
      ((col.filterMap id).length : ℚ) / (df.nrows : ℚ) * 100 := by
  have h1 : ((sortCountsDesc (valueCounts col)).map
      (fun p => (p.2 : ℚ) / (df.nrows : ℚ) * 100)) =
      ((sortCountsDesc (valueCounts col)).map
        (fun p => ((p.2 : ℕ) : ℚ) * (100 / (df.nrows : ℚ)))) := by
    refine List.map_congr_left (fun p _ => ?_)
    ring
  rw [h1, List.sum_map_mul_right]
  have h2 : ((sortCountsDesc (valueCounts col)).map
      (fun p => ((p.2 : ℕ) : ℚ))).sum =
      ((((sortCountsDesc (valueCounts col)).map (fun p => p.2)).sum : ℕ) : ℚ) := by
    rw [Nat.cast_list_sum, List.map_map]
    rfl
  rw [h2, sortCountsDesc_map_sum, sum_counts_valueCounts]
  ring

/-- C2 (amended): for every nonempty table and present column with no
missing cell, the percentage column sums to 100 up to the accumulated
three-decimal rounding error, at most `1/2000` per summary row. -/
theorem c2_percent_sum {V : Type} [DecidableEq V] (df : DataFrame V)
    (c : String) (col : List (Option V)) (hcol : df.get c = some col)
    (hall : ∀ x ∈ col, x.isSome) (hpos : 0 < df.nrows) :
    ∃ S, create_class_distribution_table df c = some S ∧
      |S.Percentuale.sum - 100| ≤ (S.Percentuale.length : ℚ) / 2000 := by
  refine ⟨_, create_table_eq hcol, ?_⟩
  have hg : ((sortCountsDesc (valueCounts col)).map
      (fun p => (p.2 : ℚ) / (df.nrows : ℚ) * 100)).sum = 100 := by
    rw [sum_shares df col, length_filterMap_of_all_isSome col hall,
      DataFrame.length_of_get hcol]
    rw [div_self (ne_of_gt (by exact_mod_cast Nat.cast_pos.mpr hpos))]
    ring
  have hb := abs_sum_map_sub_le (sortCountsDesc (valueCounts col))
    (fun p => npRound3 ((p.2 : ℚ) / (df.nrows : ℚ) * 100))
    (fun p => (p.2 : ℚ) / (df.nrows : ℚ) * 100) (1/2000)
    (fun a _ => abs_npRound3_sub_le _)
  rw [hg] at hb
  rw [List.length_map]
  calc |((sortCountsDesc (valueCounts col)).map
        (fun p => npRound3 ((p.2 : ℚ) / (df.nrows : ℚ) * 100))).sum - 100|
      ≤ (sortCountsDesc (valueCounts col)).length * (1/2000) := hb
    _ = ((sortCountsDesc (valueCounts col)).length : ℚ) / 2000 := by ring

/-- Witness for C2 at the attack-type scenario table. -/
theorem c2_percent_sum_witness :
    dfAttack.get "attack_type" = some attackCells ∧
    (∀ x ∈ attackCells, x.isSome) ∧ 0 < dfAttack.nrows ∧
    (∃ S, create_class_distribution_table dfAttack "attack_type" = some S ∧
      |S.Percentuale.sum - 100| ≤ (S.Percentuale.length : ℚ) / 2000) :=
  ⟨by decide, by decide, by decide,
   c2_percent_sum dfAttack "attack_type" attackCells (by decide) (by decide)
     (by decide)⟩

/-- C2 as stated fails on the empty table: no cell is missing, yet the
percentage column is empty and sums to 0, not to 100 within any rounding
tolerance. -/
theorem c2_counterexample :
    dfEmpty.get "c" = some [] ∧
    (∀ x ∈ ([] : List (Option Nat)), x.isSome) ∧
    ∃ S, create_class_distribution_table dfEmpty "c" = some S ∧
      S.Percentuale.sum = 0 ∧ (1 : ℚ) < |S.Percentuale.sum - 100| := by
  refine ⟨by decide, by simp, ?_⟩
  refine ⟨_, create_table_eq (show dfEmpty.get "c" = some [] by decide),
    rfl, ?_⟩
  show (1 : ℚ) < |(0 : ℚ) - 100|
  norm_num

/-- C5: the summary table has its three columns and its index all of one
length, rows sorted by descending count, each percentage the rounded
share of the full row count, and index 1, 2, 3, ... -/
theorem c5_summary_shape {V : Type} [DecidableEq V] (df : DataFrame V)
    (c : String) (col : List (Option V)) (hcol : df.get c = some col) :
    ∃ S, create_class_distribution_table df c = some S ∧
      S.Attacco.length = S.NumeroDiEsempi.length ∧
      S.Percentuale.length = S.NumeroDiEsempi.length ∧
      S.index.length = S.NumeroDiEsempi.length ∧
      S.NumeroDiEsempi.Sorted (fun a b => b ≤ a) ∧
      S.Percentuale = S.NumeroDiEsempi.map
        (fun cnt : ℕ => npRound3 ((cnt : ℚ) / (df.nrows : ℚ) * 100)) ∧
      S.index = List.range' 1 S.NumeroDiEsempi.length := by
  refine ⟨_, create_table_eq hcol, ?_, ?_, ?_, ?_, ?_, ?_⟩
  · rw [List.length_map, List.length_map]
  · rw [List.length_map, List.length_map]
  · rw [List.length_range', List.length_map]
  · exact sortCountsDesc_sorted _
  · rw [List.map_map]
    rfl
  · rw [List.length_map]

/-- Witness for C5 at the attack-type scenario table. -/
theorem c5_summary_shape_witness :
    dfAttack.get "attack_type" = some attackCells ∧
    (∃ S, create_class_distribution_table dfAttack "attack_type" = some S ∧
      S.Attacco.length = S.NumeroDiEsempi.length ∧
      S.Percentuale.length = S.NumeroDiEsempi.length ∧
      S.index.length = S.NumeroDiEsempi.length ∧
      S.NumeroDiEsempi.Sorted (fun a b => b ≤ a) ∧
      S.Percentuale = S.NumeroDiEsempi.map
        (fun cnt : ℕ => npRound3 ((cnt : ℚ) / (dfAttack.nrows : ℚ) * 100)) ∧
      S.index = List.range' 1 S.NumeroDiEsempi.length) :=
  ⟨by decide,
   c5_summary_shape dfAttack "attack_type" attackCells (by decide)⟩

/-- A column all of whose cells hold the same value `a` filters to a
replicated list of `a`. -/
theorem filterMap_id_of_all_eq {V : Type} (col : List (Option V)) (a : V)
    (h : ∀ x ∈ col, x = some a) :
    col.filterMap id = List.replicate col.length a := by
  induction col with
  | nil => rfl
  | cons x xs ih =>
    have hx := h x (List.mem_cons_self x xs)
    subst hx
    have ihh := ih (fun y hy => h y (List.mem_cons_of_mem _ hy))
    simp [List.filterMap_cons, List.replicate_succ, ihh]

/-- Deduplicating a nonempty replicated list gives the singleton. -/
theorem dedup_replicate_pos {V : Type} [DecidableEq V] (n : Nat) (a : V)
    (h : n ≠ 0) : (List.replicate n a).dedup = [a] := by
  induction n with
  | zero => exact absurd rfl h
  | succ k ih =>
    cases Nat.eq_zero_or_pos k with
    | inl hk =>
      subst hk
      rfl
    | inr hk =>
      have hk0 : k ≠ 0 := Nat.pos_iff_ne_zero.mp hk
      rw [List.replicate_succ,
        List.dedup_cons_of_mem (List.mem_replicate.mpr ⟨hk0, rfl⟩)]
      exact ih hk0

/-- Rounding an integer-valued rational returns it unchanged. -/
theorem npRound3_int_value {x : ℚ} (z : ℤ)
    (h : x * 1000 = ((z * 1000 : ℤ) : ℚ)) : npRound3 x = x := by
  have hf : ⌊x * 1000⌋ = z * 1000 := by
    rw [h]
    exact Int.floor_intCast _
  have hlt : x * 1000 - ((z * 1000 : ℤ) : ℚ) < 1/2 := by
    rw [h, sub_self]
    norm_num
  have hx : x = ((z * 1000 : ℤ) : ℚ) / 1000 := by
    rw [← h]
    ring
  rw [npRound3_of_floor_lt hf hlt, ← hx]

/-- C4: the attack-type scenario produces exactly the two rows
(dos, 3, 75.0) and (probe, 1, 25.0) in that order, and any present column
holding exactly one distinct (non-missing) value yields a one-row summary
table with percentage 100. -/
theorem c4_scenario_and_single_value :
    create_class_distribution_table dfAttack "attack_type" =
      some ⟨["dos", "probe"], [3, 1], [75, 25], [1, 2]⟩ ∧
    (∀ (V : Type) [DecidableEq V] (df : DataFrame V) (c : String)
      (col : List (Option V)) (a : V), df.get c = some col →
      col.dedup = [some a] →
      create_class_distribution_table df c =
        some ⟨[a], [df.nrows], [100], [1]⟩) := by
  constructor
  · rw [create_table_eq
      (show dfAttack.get "attack_type" = some attackCells by decide)]
    have hcd : sortCountsDesc (valueCounts attackCells) =
        [("dos", 3), ("probe", 1)] := by decide
    rw [hcd]
    have h75 : npRound3 (75 : ℚ) = 75 :=
      npRound3_int_value 75 (by push_cast; norm_num)
    have h25 : npRound3 (25 : ℚ) = 25 :=
      npRound3_int_value 25 (by push_cast; norm_num)
    have hidx : List.range' 1 ([("dos", 3), ("probe", 1)] :
        List (String × ℕ)).length = [1, 2] := by decide
    simp only [List.map_cons, List.map_nil, hidx, Option.some.injEq,
      SummaryTable.mk.injEq]
    norm_num [dfAttack, h75, h25]
  · intro V _ df c col a hcol hded
    have hmem : ∀ x ∈ col, x = some a := by
      intro x hx
      have hxd : x ∈ col.dedup := List.mem_dedup.mpr hx
      rw [hded] at hxd
      simpa using hxd
    have hne : col ≠ [] := by
      intro h0
      rw [h0] at hded
      simp at hded
    have hlenpos : 0 < col.length := List.length_pos.mpr hne
    have hfm : col.filterMap id = List.replicate col.length a :=
      filterMap_id_of_all_eq col a hmem
    have hded2 : (col.filterMap id).dedup = [a] := by
      rw [hfm]
      exact dedup_replicate_pos col.length a (Nat.pos_iff_ne_zero.mp hlenpos)
    have hcount : col.count (some a) = col.length :=
      List.count_eq_length.mpr (fun b hb => (hmem b hb).symm)
    have hvc : valueCounts col = [(a, col.length)] := by
      unfold valueCounts
      rw [hded2]
      simp [hcount]
    have hsort : sortCountsDesc [(a, col.length)] = [(a, col.length)] := rfl
    have hn : col.length = df.nrows := DataFrame.length_of_get hcol
    have hden : ((df.nrows : ℕ) : ℚ) ≠ 0 := by
      rw [← hn]
      exact_mod_cast Nat.pos_iff_ne_zero.mp hlenpos
    have hshare : ((col.length : ℕ) : ℚ) / ((df.nrows : ℕ) : ℚ) * 100 =
        100 := by
      rw [hn, div_self hden]
      ring
    have h100 : npRound3 (100 : ℚ) = 100 :=
      npRound3_int_value 100 (by push_cast; norm_num)
    rw [create_table_eq hcol, hvc, hsort]
    simp only [List.map_cons, List.map_nil, List.length_cons,
      List.length_nil, List.range'_one, Option.some.injEq,
      SummaryTable.mk.injEq, hshare, h100, hn]
    rw [div_self hden, one_mul]
    simp [h100, List.range'_one]

/-- Witness for the single-distinct-value part of C4. -/
theorem c4_scenario_and_single_value_witness :
    dfSingle.get "t" = some singleCells ∧
    singleCells.dedup = [some "x"] ∧
    create_class_distribution_table dfSingle "t" =
      some ⟨["x"], [dfSingle.nrows], [100], [1]⟩ :=
  ⟨by decide, by decide,
   c4_scenario_and_single_value.2 String dfSingle "t" singleCells "x"
     (by decide) (by decide)⟩

/-- Unfolding of `find_unique_values` when both columns exist. -/
theorem find_unique_values_eq {V : Type} [DecidableEq V]
    {df1 df2 : DataFrame V} {c : String} {c1 c2 : List (Option V)}
    (h1 : df1.get c = some c1) (h2 : df2.get c = some c2)
    (n1 n2 : String) :
    find_unique_values df1 df2 c n1 n2 =
      some (⟨"Valori unici in " ++ n1,
              c1.dedup.filter (fun x => decide (x ∉ c2))⟩,
            ⟨"Valori unici in " ++ n2,
              c2.dedup.filter (fun x => decide (x ∉ c1))⟩) := by
  unfold find_unique_values
  rw [h1, h2]

/-- The first exclusive list holds exactly the set difference of the two
columns' value sets. -/
theorem toFinset_filter_dedup {V : Type} [DecidableEq V]
    (c1 c2 : List (Option V)) :
    (c1.dedup.filter (fun x => decide (x ∉ c2))).toFinset =
      c1.toFinset \ c2.toFinset := by
  ext x
  simp [List.mem_filter, List.mem_dedup]

/-- The first exclusive list has as many entries as the set difference
has elements. -/
theorem length_filter_dedup {V : Type} [DecidableEq V]
    (c1 c2 : List (Option V)) :
    (c1.dedup.filter (fun x => decide (x ∉ c2))).length =
      (c1.toFinset \ c2.toFinset).card := by
  rw [← toFinset_filter_dedup]
  exact (List.toFinset_card_of_nodup ((List.nodup_dedup c1).filter _)).symm

/-- C3: the two exclusive-value sets are the asymmetric set differences,
they are disjoint from each other and from the intersection, their union
with the intersection restores the union of both value sets, and the
{a,b,c} versus {b,c,d} scenario yields {a} and {d}. -/
theorem c3_exclusive_sets :
    (∀ (V : Type) [DecidableEq V] (df1 df2 : DataFrame V)
      (c n1 n2 : String) (c1 c2 : List (Option V)),
      df1.get c = some c1 → df2.get c = some c2 →
      ∃ e1 e2, find_unique_values df1 df2 c n1 n2 = some (e1, e2) ∧
        e1.values.toFinset = c1.toFinset \ c2.toFinset ∧
        e2.values.toFinset = c2.toFinset \ c1.toFinset ∧
        e1.values.toFinset ∩ e2.values.toFinset = ∅ ∧
        e1.values.toFinset ∩ (c1.toFinset ∩ c2.toFinset) = ∅ ∧
        e2.values.toFinset ∩ (c1.toFinset ∩ c2.toFinset) = ∅ ∧
        e1.values.toFinset ∪ e2.values.toFinset ∪
            (c1.toFinset ∩ c2.toFinset) =
          c1.toFinset ∪ c2.toFinset) ∧
    find_unique_values dfX1 dfX2 "x" "T1" "T2" =
      some (⟨"Valori unici in T1", [some "a"]⟩,
            ⟨"Valori unici in T2", [some "d"]⟩) := by
  constructor
  · intro V _ df1 df2 c n1 n2 c1 c2 h1 h2
    refine ⟨_, _, find_unique_values_eq h1 h2 n1 n2,
      toFinset_filter_dedup c1 c2, toFinset_filter_dedup c2 c1,
      ?_, ?_, ?_, ?_⟩
    · ext x
      simp [List.mem_filter, List.mem_dedup]
      tauto
    · ext x
      simp [List.mem_filter, List.mem_dedup]
      tauto
    · ext x
      simp [List.mem_filter, List.mem_dedup]
      tauto
    · ext x
      simp [List.mem_filter, List.mem_dedup]
      tauto
  · decide

/-- Witness for the universal part of C3 at the scenario tables. -/
theorem c3_exclusive_sets_witness :
    dfX1.get "x" = some x1Cells ∧ dfX2.get "x" = some x2Cells ∧
    (∃ e1 e2, find_unique_values dfX1 dfX2 "x" "T1" "T2" = some (e1, e2) ∧
      e1.values.toFinset = x1Cells.toFinset \ x2Cells.toFinset ∧
      e2.values.toFinset = x2Cells.toFinset \ x1Cells.toFinset ∧
      e1.values.toFinset ∩ e2.values.toFinset = ∅ ∧
      e1.values.toFinset ∩ (x1Cells.toFinset ∩ x2Cells.toFinset) = ∅ ∧
      e2.values.toFinset ∩ (x1Cells.toFinset ∩ x2Cells.toFinset) = ∅ ∧
      e1.values.toFinset ∪ e2.values.toFinset ∪
          (x1Cells.toFinset ∩ x2Cells.toFinset) =
        x1Cells.toFinset ∪ x2Cells.toFinset) :=
  ⟨by decide, by decide,
   c3_exclusive_sets.1 String dfX1 dfX2 "x" "T1" "T2" x1Cells x2Cells
     (by decide) (by decide)⟩

/-- C10: `find_unique_values` returns two independent single-column
tables, each exactly as long as its exclusive-value set, named after the
respective dataset name. -/
theorem c10_exclusive_table_shapes {V : Type} [DecidableEq V]
    (df1 df2 : DataFrame V) (c n1 n2 : String) (c1 c2 : List (Option V))
    (h1 : df1.get c = some c1) (h2 : df2.get c = some c2) :
    ∃ e1 e2, find_unique_values df1 df2 c n1 n2 = some (e1, e2) ∧
      e1.colName = "Valori unici in " ++ n1 ∧
      e2.colName = "Valori unici in " ++ n2 ∧
      e1.values.length = (c1.toFinset \ c2.toFinset).card ∧
      e2.values.length = (c2.toFinset \ c1.toFinset).card :=
  ⟨_, _, find_unique_values_eq h1 h2 n1 n2, rfl, rfl,
   length_filter_dedup c1 c2, length_filter_dedup c2 c1⟩

/-- Witness for C10 at the scenario tables. -/
theorem c10_exclusive_table_shapes_witness :
    dfX1.get "x" = some x1Cells ∧ dfX2.get "x" = some x2Cells ∧
    (∃ e1 e2, find_unique_values dfX1 dfX2 "x" "A" "B" = some (e1, e2) ∧
      e1.colName = "Valori unici in " ++ "A" ∧
      e2.colName = "Valori unici in " ++ "B" ∧
      e1.values.length = (x1Cells.toFinset \ x2Cells.toFinset).card ∧
      e2.values.length = (x2Cells.toFinset \ x1Cells.toFinset).card) :=
  ⟨by decide, by decide,
   c10_exclusive_table_shapes dfX1 dfX2 "x" "A" "B" x1Cells x2Cells
     (by decide) (by decide)⟩

/-- C6: calling the summary-table builder twice in sequence on the same
table yields identical outputs: the first call hands the table state on
unchanged and the second call returns the same summary table. -/
theorem c6_deterministic {V : Type} [DecidableEq V] (df : DataFrame V)
    (c : String) :
    (create_class_distribution_table_run
        ((create_class_distribution_table_run df c).2) c).1 =
      (create_class_distribution_table_run df c).1 ∧
    (create_class_distribution_table_run
        ((create_class_distribution_table_run df c).2) c).2 = df :=
  ⟨rfl, rfl⟩

/-- C7 (amended): every figure-size default is (12,7), (15,7) or (10,8);
every rotation default is 45 or 90; the explode-threshold default is
0.05; the palette default is "jet". -/
theorem c7_defaults :
    (plot_class_distribution_default_figsize = (12, 7) ∨
     plot_class_distribution_default_figsize = (15, 7) ∨
     plot_class_distribution_default_figsize = (10, 8)) ∧
    (plot_pie_chart_distribution_default_figsize = (12, 7) ∨
     plot_pie_chart_distribution_default_figsize = (15, 7) ∨
     plot_pie_chart_distribution_default_figsize = (10, 8)) ∧
    (plot_grouped_bar_default_figsize = (12, 7) ∨
     plot_grouped_bar_default_figsize = (15, 7) ∨
     plot_grouped_bar_default_figsize = (10, 8)) ∧
    (plot_line_distribution_default_figsize = (12, 7) ∨
     plot_line_distribution_default_figsize = (15, 7) ∨
     plot_line_distribution_default_figsize = (10, 8)) ∧
    (plot_class_distribution_default_rotation = 45 ∨
     plot_class_distribution_default_rotation = 90) ∧
    (plot_grouped_bar_default_rotation = 45 ∨
     plot_grouped_bar_default_rotation = 90) ∧
    (plot_line_distribution_default_rotation = 45 ∨
     plot_line_distribution_default_rotation = 90) ∧
    plot_pie_chart_distribution_default_explode_threshold = 5/100 ∧
    plot_class_distribution_default_color_map = "jet" :=
  ⟨Or.inl rfl, Or.inr (Or.inr rfl), Or.inr (Or.inl rfl),
   Or.inr (Or.inl rfl), Or.inl rfl, Or.inl rfl, Or.inr rfl, rfl, rfl⟩

/-- C7 as stated fails: the pie-chart renderer's figure-size default is
(10, 8), which is neither (12, 7) nor (15, 7). -/
theorem c7_counterexample :
    plot_pie_chart_distribution_default_figsize = (10, 8) ∧
    plot_pie_chart_distribution_default_figsize ≠ (12, 7) ∧
    plot_pie_chart_distribution_default_figsize ≠ (15, 7) := by
  refine ⟨rfl, ?_, ?_⟩ <;> decide

/-- C8: none of the six helpers mutates its input table: in the
state-passing embedding, every call returns the DataFrame state exactly
as it received it. -/
theorem c8_no_mutation :
    (∀ (V : Type) [DecidableEq V] (df : DataFrame V)
        (column title xlabel ylabel : String) (figsize : Nat × Nat)
        (color_map : String) (rotation : Nat),
      (plot_class_distribution_run df column title xlabel ylabel figsize
        color_map rotation).2 = df) ∧
    (∀ (V : Type) [DecidableEq V] (df : DataFrame V) (column title : String)
        (figsize : Nat × Nat) (explode_threshold : ℚ),
      (plot_pie_chart_distribution_run df column title figsize
        explode_threshold).2 = df) ∧
    (∀ (V : Type) [DecidableEq V] (df : DataFrame V)
        (category sub_category count title xlabel ylabel : String)
        (figsize : Nat × Nat) (rotation : Nat),
      (plot_grouped_bar_run df category sub_category count title xlabel
        ylabel figsize rotation).2 = df) ∧
    (∀ (V : Type) [DecidableEq V] (df : DataFrame V) (column_name : String),
      (create_class_distribution_table_run df column_name).2 = df) ∧
    (∀ (V : Type) [DecidableEq V] (df1 df2 : DataFrame V)
        (column_name df1_name df2_name : String),
      (find_unique_values_run df1 df2 column_name df1_name df2_name).2 =
        (df1, df2)) ∧
    (∀ (V : Type) [DecidableEq V] (df : DataFrame V) (column : String)
        (figsize : Nat × Nat) (rotation : Nat) (grid : Bool)
        (title xlabel : Option String) (ylabel : String),
      (plot_line_distribution_run df column figsize rotation grid title
        xlabel ylabel).2 = df) := by
  refine ⟨?_, ?_, ?_, ?_, ?_, ?_⟩ <;> intros <;> rfl

/-- C9 (amended): counts sum to the non-missing cell count; with at least
one missing cell the exact shares sum to strictly less than 100, and the
rounded percentage column exceeds that exact sum by at most `1/2000` per
summary row (it need not stay below 100). -/
theorem c9_missing_values {V : Type} [DecidableEq V] (df : DataFrame V)
    (c : String) (col : List (Option V)) (hcol : df.get c = some col)
    (hmiss : none ∈ col) :
    ∃ S, create_class_distribution_table df c = some S ∧
      S.NumeroDiEsempi.sum = (col.filterMap id).length ∧
      (col.filterMap id).length < df.nrows ∧
      ((col.filterMap id).length : ℚ) / (df.nrows : ℚ) * 100 < 100 ∧
      S.Percentuale.sum ≤
        ((col.filterMap id).length : ℚ) / (df.nrows : ℚ) * 100 +
          (S.Percentuale.length : ℚ) / 2000 := by
  have hlt : (col.filterMap id).length < col.length :=
    length_filterMap_lt_of_none_mem col hmiss
  have hn : col.length = df.nrows := DataFrame.length_of_get hcol
  have hltn : (col.filterMap id).length < df.nrows := hn ▸ hlt
  have hpos : 0 < df.nrows := Nat.lt_of_le_of_lt (Nat.zero_le _) hltn
  refine ⟨_, create_table_eq hcol, ?_, hltn, ?_, ?_⟩
  · rw [sortCountsDesc_map_sum, sum_counts_valueCounts]
  · have h1 : ((col.filterMap id).length : ℚ) < (df.nrows : ℚ) := by
      exact_mod_cast hltn
    have h2 : (0 : ℚ) < (df.nrows : ℚ) := by exact_mod_cast hpos
    have h3 : ((col.filterMap id).length : ℚ) / (df.nrows : ℚ) < 1 :=
      (div_lt_one h2).mpr h1
    calc ((col.filterMap id).length : ℚ) / (df.nrows : ℚ) * 100
        < 1 * 100 := mul_lt_mul_of_pos_right h3 (by norm_num)
      _ = 100 := by norm_num
  · have hb := abs_sum_map_sub_le (sortCountsDesc (valueCounts col))
      (fun p => npRound3 ((p.2 : ℚ) / (df.nrows : ℚ) * 100))
      (fun p => (p.2 : ℚ) / (df.nrows : ℚ) * 100) (1/2000)
      (fun a _ => abs_npRound3_sub_le _)
    have hg := sum_shares df col
    rw [List.length_map]
    have habs := (abs_le.mp hb).2
    rw [hg] at habs
    linarith [habs]

/-- Witness for C9 at the two-row table with one missing cell. -/
theorem c9_missing_values_witness :
    dfMissing.get "c" = some missingCells ∧ none ∈ missingCells ∧
    (∃ S, create_class_distribution_table dfMissing "c" = some S ∧
      S.NumeroDiEsempi.sum = (missingCells.filterMap id).length ∧
      (missingCells.filterMap id).length < dfMissing.nrows ∧
      ((missingCells.filterMap id).length : ℚ) / (dfMissing.nrows : ℚ) *
          100 < 100 ∧
      S.Percentuale.sum ≤
        ((missingCells.filterMap id).length : ℚ) / (dfMissing.nrows : ℚ) *
            100 + (S.Percentuale.length : ℚ) / 2000) :=
  ⟨by decide, by decide,
   c9_missing_values dfMissing "c" missingCells (by decide) (by decide)⟩

/-- A relation that always holds is pairwise on every list. -/
theorem pairwise_of_all {α : Type} {R : α → α → Prop} (h : ∀ a b, R a b) :
    ∀ l : List α, l.Pairwise R
  | [] => List.Pairwise.nil
  | x :: xs => List.Pairwise.cons (fun y _ => h x y) (pairwise_of_all h xs)

set_option maxRecDepth 8000 in
/-- C9's strict-less-than-100 conclusion fails as stated: on a 600-row
table with one missing cell and 599 singleton categories, each share
1/6 % rounds up to 0.167 %, and the percentage column sums to 100.033. -/
theorem c9_counterexample :
    none ∈ c9Cells ∧
    ∃ S, create_class_distribution_table dfC9 "c" = some S ∧
      100 < S.Percentuale.sum := by
  constructor
  · simp [c9Cells]
  · have hget : dfC9.get "c" = some c9Cells := rfl
    have hfm : c9Cells.filterMap id = List.range 599 := by
      simp [c9Cells, List.filterMap_append, List.filterMap_map]
    have hvc : valueCounts c9Cells =
        (List.range 599).map (fun v => (v, 1)) := by
      unfold valueCounts
      rw [hfm, List.dedup_eq_self.mpr (List.nodup_range 599)]
      refine List.map_congr_left (fun v hv => ?_)
      have hcount : c9Cells.count (some v) = 1 := by
        rw [count_some_filterMap v c9Cells, hfm]
        exact List.count_eq_one_of_mem (List.nodup_range 599) hv
      rw [hcount]
    have hsorted : sortCountsDesc ((List.range 599).map (fun v => (v, 1))) =
        (List.range 599).map (fun v => (v, 1)) := by
      apply List.Sorted.insertionSort_eq
      exact List.pairwise_map.mpr
        (pairwise_of_all (fun a b => le_refl 1) (List.range 599))
    have hval : npRound3 ((((1 : ℕ) : ℚ)) / ((dfC9.nrows : ℕ) : ℚ) * 100) =
        167/1000 := by
      have hq : ⌊(((1 : ℕ) : ℚ)) / ((dfC9.nrows : ℕ) : ℚ) * 100 * 1000⌋ =
          166 := by
        show ⌊(((1 : ℕ) : ℚ)) / (((600 : ℕ) : ℕ) : ℚ) * 100 * 1000⌋ = 166
        rw [show (((1 : ℕ) : ℚ)) / (((600 : ℕ) : ℕ) : ℚ) * 100 * 1000 =
          500/3 by push_cast; norm_num]
        rw [Int.floor_eq_iff]
        constructor <;> norm_num
      have hgt : 1/2 < (((1 : ℕ) : ℚ)) / ((dfC9.nrows : ℕ) : ℚ) * 100 *
          1000 - ((166 : ℤ) : ℚ) := by
        show 1/2 < (((1 : ℕ) : ℚ)) / (((600 : ℕ) : ℕ) : ℚ) * 100 * 1000 -
          ((166 : ℤ) : ℚ)
        push_cast
        norm_num
      rw [npRound3_of_floor_gt hq hgt]
      norm_num
    have hmap : (sortCountsDesc (valueCounts c9Cells)).map
        (fun p => npRound3 ((p.2 : ℚ) / (dfC9.nrows : ℚ) * 100)) =
        List.replicate 599 ((167 : ℚ)/1000) := by
      rw [hvc, hsorted, List.map_map]
      rw [@List.map_congr_left ℕ (List.range 599) ℚ
        ((fun p : ℕ × ℕ => npRound3 ((p.2 : ℚ) / (dfC9.nrows : ℚ) * 100)) ∘
          (fun v : ℕ => (v, 1)))
        (fun _ : ℕ => (167 : ℚ)/1000) (fun v hv => hval)]
      rw [List.map_const', List.length_range]
    refine ⟨_, create_table_eq hget, ?_⟩
    rw [hmap]
    norm_num [List.sum_replicate, nsmul_eq_mul]
